import Mathlib

set_option autoImplicit false

/-!
Shallow embedding of the two core units of the repository:

* `src/yb/rpc/rpc_context.cc` — the `RpcContext` inbound-call lifecycle.
  Its side effects (latency recording, trace-span events, delegation to the
  inbound-call handle, self-destruction, socket shutdown) are embedded as an
  explicit list of `Event`s produced by each operation; each terminal
  operation consumes the context value, mirroring `delete this`.
* the locality-aware replica selection exercised by
  `src/yb/integration-tests/placement_info-itest.cc`.  The selection
  algorithm itself (`YBClient::Data::SelectTServer` and the meta-cache) is
  not among the provided source files, so it is modelled from the spec.
-/

/-! ## Protobuf messages and trace capture (`rpc_context.cc`, anonymous namespace) -/

/-- Captured content of one protobuf field; `value` is the captured content,
whose length is measured in characters ("units"). -/
structure PbField where
  name : String
  value : List Char
  deriving DecidableEq, Repr

/-- A protobuf message, viewed as its list of fields. -/
abbrev PbMessage := List PbField

/-- Constant `PbTracer::kMaxFieldLengthToTrace` from `rpc_context.cc`. -/
def kMaxFieldLengthToTrace : Nat := 100

/-- Modelled from the spec: `pb_util::TruncateFields` (declared in
`yb/util/pb_util.h`, implementation not among the provided sources) caps any
single field's captured length at `cap` units. -/
def truncateFields (msg : PbMessage) (cap : Nat) : PbMessage :=
  msg.map fun f => { f with value := f.value.take cap }

/-- Embedding of `PbTracer` (`rpc_context.cc`): wraps a copy of a protobuf
message; stringification is deferred to trace-dump time. -/
structure PbTracer where
  msg : PbMessage
  deriving DecidableEq, Repr

/-- Embedding of the `PbTracer` constructor: `msg_(msg.New())` followed by
`msg_->CopyFrom(msg)` — the tracer holds a copy of the message. -/
def PbTracer.ofMessage (msg : PbMessage) : PbTracer := ⟨msg⟩

/-- Embedding of `PbTracer::AppendAsTraceFormat`: truncates every field of the
held copy to `kMaxFieldLengthToTrace` and emits the result (the JSON rendering
itself is external; the captured per-field content is what matters here). -/
def PbTracer.appendAsTraceFormat (t : PbTracer) : PbMessage :=
  truncateFields t.msg kMaxFieldLengthToTrace

/-! ## Collaborator data (out-of-scope types, modelled by their observable data) -/

/-- User credentials attached to an inbound call; `description` stands for the
string produced by `UserCredentials::ToString()` (implementation external). -/
structure UserCredentials where
  description : String
  deriving DecidableEq, Repr

/-- Remote socket address; `addrString` stands for the string produced by
`Sockaddr::ToString()` (implementation external). -/
structure Sockaddr where
  addrString : String
  deriving DecidableEq, Repr

/-- Status object carried by failure responses; `render` stands for
`Status::ToString()`. Statuses are compared by their rendering here. -/
structure Status where
  render : String
  deriving DecidableEq, Repr

/-- Handle to one per-method latency histogram (`scoped_refptr<Histogram>`),
identified abstractly. -/
structure MetricId where
  id : Nat
  deriving DecidableEq, Repr

/-- Embedding of `RpcMethodMetrics`: the per-method metric handles consumed by
`RpcContext` (only `handler_latency` is used by `rpc_context.cc`). -/
structure RpcMethodMetrics where
  handler_latency : MetricId
  deriving DecidableEq, Repr

/-- Wire error codes of `ErrorStatusPB::RpcErrorCodePB` used by the respond
paths (the full proto enum is external; these members suffice to distinguish
the application code from transport codes). -/
inductive ErrorStatusRpcErrorCode where
  | FATAL_UNKNOWN
  | ERROR_APPLICATION
  | ERROR_NO_SUCH_METHOD
  | ERROR_NO_SUCH_SERVICE
  | ERROR_INVALID_REQUEST
  | ERROR_SERVER_TOO_BUSY
  deriving DecidableEq, Repr

/-- Transport-level inbound call handle (`InboundCall`, external collaborator):
the data `RpcContext` reads from it. `toStringRepr` stands for
`InboundCall::ToString()`, `traceDump` for `trace()->DumpToString(true)`. -/
structure InboundCall where
  user_credentials : UserCredentials
  remote_address : Sockaddr
  toStringRepr : String
  traceDump : String
  socketFd : Nat
  deriving DecidableEq, Repr

/-! ## Payload references -/

/-- A `shared_ptr<const Message>` payload reference: null, the process-wide
shared `EMPTY_MESSAGE` singleton, or a pointer to a concrete message. -/
inductive MsgRef where
  | null
  | emptyMessageSingleton
  | ptr (m : PbMessage)
  deriving DecidableEq, Repr

/-- Embedding of the file-static `EMPTY_MESSAGE` =
`shared_ptr<const Message>(new EmptyMessagePB())` singleton. -/
def EMPTY_MESSAGE : MsgRef := MsgRef.emptyMessageSingleton

/-- Dereference a payload reference. The `EmptyMessagePB` singleton carries no
fields. Dereferencing a null pointer is undefined behaviour in the source; it
is modelled as the empty message. -/
def MsgRef.deref : MsgRef → PbMessage
  | MsgRef.null => []
  | MsgRef.emptyMessageSingleton => []
  | MsgRef.ptr m => m

/-! ## RpcContext and its observable effects -/

/-- Embedding of `RpcContext`: the call handle, the request/response payload
references and the per-method metrics bound at construction. -/
structure RpcContext where
  call : InboundCall
  request_pb : MsgRef
  response_pb : MsgRef
  metrics : RpcMethodMetrics
  deriving DecidableEq, Repr

/-- Value carried by one key of a trace event: either plain text or a lazily
stringified protobuf copy (`TracePb`). -/
inductive TraceValue where
  | text (s : String)
  | tracedPb (t : PbTracer)
  deriving DecidableEq, Repr

/-- Observable side effects performed by `RpcContext` operations, in program
order. `destroySelf` stands for `delete this`; `socketShutdown fd how` stands
for `shutdown(fd, how)` on the connection's socket. -/
inductive Event where
  | recordHandlingCompleted (metric : MetricId)
  | traceSpanBegin (key1 : String) (val1 : TraceValue) (key2 : String) (val2 : TraceValue)
  | traceSpanEnd (key1 : String) (val1 : TraceValue) (key2 : String) (val2 : TraceValue)
  | sendSuccess (response : PbMessage)
  | sendFailure (code : ErrorStatusRpcErrorCode) (status : Status)
  | sendApplicationError (error_ext_id : Int) (message : String) (payload : PbMessage)
  | destroySelf
  | socketShutdown (fd : Nat) (how : Nat)
  deriving DecidableEq, Repr

/-- True on the `call_->RecordHandlingCompleted(...)` effect (one latency
sample recorded on a per-method metric). -/
def Event.isLatencySample : Event → Bool
  | Event.recordHandlingCompleted _ => true
  | _ => false

/-- True on the effects that invoke the call handle's send path
(`RespondSuccess`, `RespondFailure`, `RespondApplicationError` on the handle). -/
def Event.isSend : Event → Bool
  | Event.sendSuccess _ => true
  | Event.sendFailure _ _ => true
  | Event.sendApplicationError _ _ _ => true
  | _ => false

/-- True on a trace-span-end effect (`TRACE_EVENT_ASYNC_END2`). -/
def Event.isTraceSpanEnd : Event → Bool
  | Event.traceSpanEnd _ _ _ _ => true
  | _ => false

/-- Embedding of the four-argument `RpcContext` constructor: binds the handle,
both payload pointers and the metrics, and emits the trace-span-begin event
with the call description and a traced copy of the request. -/
def RpcContext.create (call : InboundCall) (request_pb response_pb : MsgRef)
    (metrics : RpcMethodMetrics) : RpcContext × List Event :=
  (⟨call, request_pb, response_pb, metrics⟩,
   [Event.traceSpanBegin "call" (TraceValue.text call.toStringRepr)
      "request" (TraceValue.tracedPb (PbTracer.ofMessage request_pb.deref))])

/-- Embedding of the two-argument `RpcContext` constructor (argument-less
methods): both payload references are set to the shared `EMPTY_MESSAGE`
singleton. -/
def RpcContext.createNoArgs (call : InboundCall) (metrics : RpcMethodMetrics) :
    RpcContext × List Event :=
  RpcContext.create call EMPTY_MESSAGE EMPTY_MESSAGE metrics

/-- Embedding of `RpcContext::RespondSuccess`: records the latency sample,
emits the trace-span-end event with a traced copy of the response plus the
accumulated trace dump, delegates the send to the call handle, then
self-destructs. The context is consumed by value. -/
def RpcContext.RespondSuccess (ctx : RpcContext) : List Event :=
  [Event.recordHandlingCompleted ctx.metrics.handler_latency,
   Event.traceSpanEnd "response" (TraceValue.tracedPb (PbTracer.ofMessage ctx.response_pb.deref))
     "trace" (TraceValue.text ctx.call.traceDump),
   Event.sendSuccess ctx.response_pb.deref,
   Event.destroySelf]

/-- Embedding of `RpcContext::RespondFailure`: like success, but the span-end
carries the status rendering and the send path is
`call_->RespondFailure(ErrorStatusPB::ERROR_APPLICATION, status)`. -/
def RpcContext.RespondFailure (ctx : RpcContext) (status : Status) : List Event :=
  [Event.recordHandlingCompleted ctx.metrics.handler_latency,
   Event.traceSpanEnd "status" (TraceValue.text status.render)
     "trace" (TraceValue.text ctx.call.traceDump),
   Event.sendFailure ErrorStatusRpcErrorCode.ERROR_APPLICATION status,
   Event.destroySelf]

/-- Embedding of `RpcContext::RespondRpcFailure`: the caller-supplied error
code is passed through unchanged to `call_->RespondFailure(err, status)`. -/
def RpcContext.RespondRpcFailure (ctx : RpcContext) (err : ErrorStatusRpcErrorCode)
    (status : Status) : List Event :=
  [Event.recordHandlingCompleted ctx.metrics.handler_latency,
   Event.traceSpanEnd "status" (TraceValue.text status.render)
     "trace" (TraceValue.text ctx.call.traceDump),
   Event.sendFailure err status,
   Event.destroySelf]

/-- Embedding of `RpcContext::RespondApplicationError`. In the source the
`TRACE_EVENT_ASYNC_END2` sits inside the `if (VLOG_IS_ON(4))` block, so the
span-end effect happens only when verbose logging at level 4 is enabled;
`vlog4` carries that runtime logging condition. -/
def RpcContext.RespondApplicationError (ctx : RpcContext) (vlog4 : Bool)
    (error_ext_id : Int) (message : String) (app_error_pb : PbMessage) : List Event :=
  [Event.recordHandlingCompleted ctx.metrics.handler_latency]
  ++ (cond vlog4
      [Event.traceSpanEnd "response" (TraceValue.tracedPb (PbTracer.ofMessage app_error_pb))
         "trace" (TraceValue.text ctx.call.traceDump)]
      [])
  ++ [Event.sendApplicationError error_ext_id message app_error_pb,
      Event.destroySelf]

/-- Embedding of accessor `RpcContext::user_credentials`. -/
def RpcContext.user_credentials (ctx : RpcContext) : UserCredentials :=
  ctx.call.user_credentials

/-- Embedding of accessor `RpcContext::remote_address`. -/
def RpcContext.remote_address (ctx : RpcContext) : Sockaddr :=
  ctx.call.remote_address

/-- Embedding of `RpcContext::requestor_string`:
`call_->user_credentials().ToString() + " at " + call_->remote_address().ToString()`. -/
def RpcContext.requestor_string (ctx : RpcContext) : String :=
  ctx.call.user_credentials.description ++ " at " ++ ctx.call.remote_address.addrString

/-- POSIX value of `SHUT_RD` on the target platform (Linux). -/
def SHUT_RD : Nat := 0

/-- POSIX value of `SHUT_WR` on the target platform (Linux). -/
def SHUT_WR : Nat := 1

/-- POSIX value of `SHUT_RDWR` on the target platform (Linux). -/
def SHUT_RDWR : Nat := 2

/-- Embedding of `RpcContext::CloseConnection`:
`shutdown(call_->connection()->socket()->GetFd(), SHUT_RD | SHUT_WR)`. -/
def RpcContext.CloseConnection (ctx : RpcContext) : List Event :=
  [Event.socketShutdown ctx.call.socketFd (SHUT_RD ||| SHUT_WR)]

/-! ## Replica selection (modelled from the spec; exercised by
`placement_info-itest.cc`) -/

/-- Placement of one server: an immutable (cloud, region, zone) triple, each
field possibly empty meaning "unspecified" (`CloudInfoPB` on the wire). -/
structure Locality where
  cloud : String
  region : String
  zone : String
  deriving DecidableEq, Repr

/-- One tablet server as seen by selection: stable unique id, locality and
connection address (`RemoteTabletServer`). -/
structure ReplicaEndpoint where
  id : String
  locality : Locality
  addr : String
  deriving DecidableEq, Repr

/-- Selection failure: the replica pool is empty or fully excluded. -/
inductive SelectError where
  | NoViableReplica
  deriving DecidableEq, Repr

/-- Modelled from the spec: one locality-dimension narrowing pass of the
selection algorithm (§4.4 step 3), over an ordered most-to-least-specific list
of (requested value, replica field) dimensions. An unspecified (empty)
requested value skips the dimension; a specified value narrows the pool to the
replicas matching it when that subset is non-empty, and otherwise stops
narrowing, keeping the last non-empty pool. -/
def applyDims (pool : List ReplicaEndpoint) :
    List (String × (ReplicaEndpoint → String)) → List ReplicaEndpoint
  | [] => pool
  | (want, field) :: rest =>
    if want = "" then
      applyDims pool rest
    else if (pool.filter fun r => field r == want) = [] then
      pool
    else
      applyDims (pool.filter fun r => field r == want) rest

/-- Ordered comparison dimensions, most specific first: zone, region, cloud. -/
def dimsOf (loc : Locality) : List (String × (ReplicaEndpoint → String)) :=
  [(loc.zone, fun r => r.locality.zone),
   (loc.region, fun r => r.locality.region),
   (loc.cloud, fun r => r.locality.cloud)]

/-- Modelled from the spec: the body of `ReplicaSelector.select` after
exclusion filtering, over the remaining (non-excluded) pool. An empty pool
fails with `NoViableReplica`; a non-empty `requester_id` matching a remaining
replica's id short-circuits to that replica with candidates = {that replica};
otherwise the pool is narrowed by zone, region, cloud in order and the chosen
replica is the first of the final pool (one documented deterministic
tie-break; the spec leaves the tie-break policy open), returned together with
the whole pool as candidates. -/
def selectFrom (requester_id : String) (requester_locality : Locality) :
    List ReplicaEndpoint → Except SelectError (ReplicaEndpoint × List ReplicaEndpoint)
  | [] => Except.error SelectError.NoViableReplica
  | r0 :: rest =>
    match (r0 :: rest).find? (fun r => !(requester_id == "") && (r.id == requester_id)) with
    | some r => Except.ok (r, [r])
    | none =>
      Except.ok ((applyDims (r0 :: rest) (dimsOf requester_locality)).headD r0,
                 applyDims (r0 :: rest) (dimsOf requester_locality))

/-- Modelled from the spec: `ReplicaSelector.select` (the
`YBClient::Data::SelectTServer` / meta-cache implementation is not among the
provided sources). Excluded ids are removed first; an empty remainder fails
with `NoViableReplica`; a non-empty `requester_id` matching a remaining
replica's id short-circuits to that replica with candidates = {that replica};
otherwise the pool is narrowed by zone, region, cloud in order and the chosen
replica is the first of the final pool (one documented deterministic
tie-break; the spec leaves the tie-break policy open), returned together with
the whole pool as candidates. -/
def selectReplica (replicas : List ReplicaEndpoint) (requester_id : String)
    (requester_locality : Locality) (excluded_ids : List String) :
    Except SelectError (ReplicaEndpoint × List ReplicaEndpoint) :=
  selectFrom requester_id requester_locality
    (replicas.filter fun r => !(excluded_ids.contains r.id))

/-! ### Concrete scenario of `PlacementInfoTest.TestSelectTServer`:
three tablet servers, cloud `"aws"`, region `"region{i}"`, zone `"zone{i}"`. -/

/-- Tablet server 0 of the test scenario. -/
def replica0 : ReplicaEndpoint := ⟨"ts-uuid-0", ⟨"aws", "region0", "zone0"⟩, "host0"⟩

/-- Tablet server 1 of the test scenario. -/
def replica1 : ReplicaEndpoint := ⟨"ts-uuid-1", ⟨"aws", "region1", "zone1"⟩, "host1"⟩

/-- Tablet server 2 of the test scenario. -/
def replica2 : ReplicaEndpoint := ⟨"ts-uuid-2", ⟨"aws", "region2", "zone2"⟩, "host2"⟩

/-- The three-replica pool of the test scenario. -/
def testReplicas : List ReplicaEndpoint := [replica0, replica1, replica2]

/-! ## Shared concrete data for witnesses and counterexamples -/

/-- A concrete inbound call for concrete evaluations. -/
def call0 : InboundCall :=
  ⟨⟨"alice"⟩, ⟨"127.0.0.1:5433"⟩, "CallRequest-1", "trace-contents", 3⟩

/-- A concrete call context for concrete evaluations. -/
def ctx0 : RpcContext :=
  ⟨call0, MsgRef.emptyMessageSingleton, MsgRef.ptr [⟨"int_val", ['4', '2']⟩], ⟨⟨7⟩⟩⟩

/-- Extract, in order, the error codes of the failure sends in an effect
list. -/
def sentFailureCodes (es : List Event) : List ErrorStatusRpcErrorCode :=
  es.filterMap fun e =>
    match e with
    | Event.sendFailure c _ => some c
    | _ => none

/-! ## Claims about the RpcContext lifecycle -/

/-- C3: after `RespondSuccess`, exactly one latency sample is recorded (on the
per-method `handler_latency` metric), the call handle's send path is invoked
exactly once, and the final effect is the self-destruction of the context
(`delete this`), so no further terminal call on the same context is possible:
the operation consumes the context and destroys it. -/
theorem respondSuccess_one_sample_one_send (ctx : RpcContext) :
    (ctx.RespondSuccess).countP Event.isLatencySample = 1 ∧
    Event.recordHandlingCompleted ctx.metrics.handler_latency ∈ ctx.RespondSuccess ∧
    (ctx.RespondSuccess).countP Event.isSend = 1 ∧
    (ctx.RespondSuccess).getLast? = some Event.destroySelf := by
  refine ⟨rfl, ?_, rfl, rfl⟩
  simp [RpcContext.RespondSuccess]

/-- C7: `requestor_string` is exactly the user-credentials description,
followed by the literal `" at "`, followed by the remote address string. -/
theorem requestor_string_eq (ctx : RpcContext) :
    ctx.requestor_string =
      (ctx.user_credentials).description ++ " at " ++ (ctx.remote_address).addrString := rfl

/-- C9: the argument-less constructor points both the request and the response
payload references at the same shared immutable `EMPTY_MESSAGE` singleton, so
neither payload reference is null. -/
theorem createNoArgs_payloads_shared_empty (call : InboundCall) (metrics : RpcMethodMetrics) :
    ((RpcContext.createNoArgs call metrics).1.request_pb = EMPTY_MESSAGE) ∧
    ((RpcContext.createNoArgs call metrics).1.response_pb = EMPTY_MESSAGE) ∧
    ((RpcContext.createNoArgs call metrics).1.request_pb
      = (RpcContext.createNoArgs call metrics).1.response_pb) ∧
    ((RpcContext.createNoArgs call metrics).1.request_pb ≠ MsgRef.null) ∧
    ((RpcContext.createNoArgs call metrics).1.response_pb ≠ MsgRef.null) := by
  refine ⟨rfl, rfl, rfl, ?_, ?_⟩ <;>
    simp [RpcContext.createNoArgs, RpcContext.create, EMPTY_MESSAGE]

/-- C10: `RespondFailure` always delivers the failure to the call handle with
the fixed code `ERROR_APPLICATION`, for every status; `RespondRpcFailure`
passes the caller-supplied code through unchanged, so the generic
application-failure path is distinguishable from transport-coded failures by
that fixed code. -/
theorem respondFailure_fixed_code_passthrough (ctx : RpcContext) (status : Status)
    (err : ErrorStatusRpcErrorCode) :
    sentFailureCodes (ctx.RespondFailure status) = [ErrorStatusRpcErrorCode.ERROR_APPLICATION] ∧
    sentFailureCodes (ctx.RespondRpcFailure err status) = [err] :=
  ⟨rfl, rfl⟩

/-- C8 (evaluation at the failing call): `CloseConnection` calls `shutdown`
with `SHUT_RD | SHUT_WR` = `0 | 1` = `SHUT_WR`, i.e. it shuts down only the
write direction, not both (`SHUT_RDWR` = 2); it performs no send through any
respond path. -/
theorem closeConnection_shuts_write_only :
    ctx0.CloseConnection = [Event.socketShutdown 3 (SHUT_RD ||| SHUT_WR)] ∧
    SHUT_RD ||| SHUT_WR = SHUT_WR ∧
    SHUT_RD ||| SHUT_WR ≠ SHUT_RDWR ∧
    (ctx0.CloseConnection).countP Event.isSend = 0 := by
  refine ⟨rfl, by decide, by decide, rfl⟩

/-- C6: the trace capture of a protobuf message truncates every single
field's captured content to at most `kMaxFieldLengthToTrace` = 100 units. -/
theorem pbTracer_truncates_every_field (m : PbMessage) (f : PbField)
    (hf : f ∈ (PbTracer.ofMessage m).appendAsTraceFormat) :
    f.value.length ≤ kMaxFieldLengthToTrace := by
  simp only [PbTracer.appendAsTraceFormat, PbTracer.ofMessage, truncateFields,
    List.mem_map] at hf
  obtain ⟨g, _, rfl⟩ := hf
  simp [List.length_take]

/-- A concrete field whose captured content is 101 units long. -/
def longField : PbField := ⟨"payload", List.replicate 101 'a'⟩

/-- The same field truncated to 100 units. -/
def cappedField : PbField := ⟨"payload", List.replicate 100 'a'⟩

/-- Witness for C6: tracing a message with a 101-unit field captures the field
truncated to 100 units, within the bound. -/
theorem pbTracer_truncates_every_field_witness :
    cappedField ∈ (PbTracer.ofMessage [longField]).appendAsTraceFormat ∧
    cappedField.value.length ≤ kMaxFieldLengthToTrace := by
  have hmem : cappedField ∈ (PbTracer.ofMessage [longField]).appendAsTraceFormat := by
    decide
  exact ⟨hmem, pbTracer_truncates_every_field [longField] cappedField hmem⟩

/-- C4 counterexample: `RespondApplicationError` with verbose logging level 4
disabled is a terminal operation (it records the latency sample, invokes the
send path once and destroys the context) yet emits no trace-span-end event, so
the span-end is not emitted unconditionally on every terminal path. -/
theorem respondApplicationError_trace_skipped :
    (ctx0.RespondApplicationError false 7 "boom" []).countP Event.isTraceSpanEnd = 0 ∧
    (ctx0.RespondApplicationError false 7 "boom" []).countP Event.isLatencySample = 1 ∧
    (ctx0.RespondApplicationError false 7 "boom" []).countP Event.isSend = 1 ∧
    (ctx0.RespondApplicationError false 7 "boom" []).getLast? = some Event.destroySelf := by
  refine ⟨rfl, rfl, rfl, rfl⟩

/-- C4 (amended): every terminal operation records the latency sample once,
invokes the send path exactly once and ends with the destruction of the
context; `RespondSuccess`, `RespondFailure` and `RespondRpcFailure` each emit
exactly one trace-span-end event, unconditionally, carrying the traced
outcome plus the accumulated trace contents, while `RespondApplicationError`
emits it exactly when verbose logging at level 4 is enabled. -/
theorem terminal_ops_record_trace_send_finalize (ctx : RpcContext) (status : Status)
    (err : ErrorStatusRpcErrorCode) (vlog4 : Bool) (eid : Int) (msg : String)
    (pb : PbMessage) :
    ((ctx.RespondSuccess).countP Event.isLatencySample = 1 ∧
     (ctx.RespondSuccess).countP Event.isTraceSpanEnd = 1 ∧
     Event.traceSpanEnd "response"
         (TraceValue.tracedPb (PbTracer.ofMessage ctx.response_pb.deref))
         "trace" (TraceValue.text ctx.call.traceDump) ∈ ctx.RespondSuccess ∧
     (ctx.RespondSuccess).countP Event.isSend = 1 ∧
     (ctx.RespondSuccess).getLast? = some Event.destroySelf) ∧
    ((ctx.RespondFailure status).countP Event.isLatencySample = 1 ∧
     (ctx.RespondFailure status).countP Event.isTraceSpanEnd = 1 ∧
     Event.traceSpanEnd "status" (TraceValue.text status.render)
         "trace" (TraceValue.text ctx.call.traceDump) ∈ ctx.RespondFailure status ∧
     (ctx.RespondFailure status).countP Event.isSend = 1 ∧
     (ctx.RespondFailure status).getLast? = some Event.destroySelf) ∧
    ((ctx.RespondRpcFailure err status).countP Event.isLatencySample = 1 ∧
     (ctx.RespondRpcFailure err status).countP Event.isTraceSpanEnd = 1 ∧
     Event.traceSpanEnd "status" (TraceValue.text status.render)
         "trace" (TraceValue.text ctx.call.traceDump) ∈ ctx.RespondRpcFailure err status ∧
     (ctx.RespondRpcFailure err status).countP Event.isSend = 1 ∧
     (ctx.RespondRpcFailure err status).getLast? = some Event.destroySelf) ∧
    ((ctx.RespondApplicationError vlog4 eid msg pb).countP Event.isLatencySample = 1 ∧
     (ctx.RespondApplicationError vlog4 eid msg pb).countP Event.isTraceSpanEnd
        = cond vlog4 1 0 ∧
     (ctx.RespondApplicationError vlog4 eid msg pb).countP Event.isSend = 1 ∧
     (ctx.RespondApplicationError vlog4 eid msg pb).getLast? = some Event.destroySelf) := by
  cases vlog4 <;>
    refine ⟨⟨rfl, rfl, ?_, rfl, rfl⟩, ⟨rfl, rfl, ?_, rfl, rfl⟩, ⟨rfl, rfl, ?_, rfl, rfl⟩,
      rfl, rfl, rfl, rfl⟩ <;>
    simp [RpcContext.RespondSuccess, RpcContext.RespondFailure, RpcContext.RespondRpcFailure]

/-! ## Lemmas about the narrowing pass -/

/-- Narrowing only ever removes replicas: the final pool is a subset of the
input pool. -/
theorem applyDims_subset (dims : List (String × (ReplicaEndpoint → String)))
    (pool : List ReplicaEndpoint) : applyDims pool dims ⊆ pool := by
  induction dims generalizing pool with
  | nil => exact fun a h => h
  | cons d rest ih =>
    obtain ⟨want, field⟩ := d
    by_cases hw : want = ""
    · simpa [applyDims, hw] using ih pool
    · by_cases hsub : (pool.filter fun r => field r == want) = []
      · simp [applyDims, hw, hsub]
      · have hstep : applyDims pool ((want, field) :: rest)
            = applyDims (pool.filter fun r => field r == want) rest := by
          simp [applyDims, hw, hsub]
        rw [hstep]
        exact (ih _).trans (List.filter_sublist _).subset

/-- Narrowing never empties a non-empty pool: a failed narrow keeps the last
non-empty pool. -/
theorem applyDims_ne_nil (dims : List (String × (ReplicaEndpoint → String)))
    (pool : List ReplicaEndpoint) (h : pool ≠ []) : applyDims pool dims ≠ [] := by
  induction dims generalizing pool with
  | nil => simpa [applyDims] using h
  | cons d rest ih =>
    obtain ⟨want, field⟩ := d
    by_cases hw : want = ""
    · simpa [applyDims, hw] using ih pool h
    · by_cases hsub : (pool.filter fun r => field r == want) = []
      · simpa [applyDims, hw, hsub] using h
      · simpa [applyDims, hw, hsub] using ih _ hsub

/-- An unspecified dimension is skipped without altering the pool. -/
theorem applyDims_cons_skip (pool : List ReplicaEndpoint) (want : String)
    (field : ReplicaEndpoint → String) (rest : List (String × (ReplicaEndpoint → String)))
    (hw : want = "") :
    applyDims pool ((want, field) :: rest) = applyDims pool rest := by
  simp [applyDims, hw]

/-- A specified dimension with a non-empty match narrows the pool to the
matching subset. -/
theorem applyDims_cons_narrow (pool : List ReplicaEndpoint) (want : String)
    (field : ReplicaEndpoint → String) (rest : List (String × (ReplicaEndpoint → String)))
    (hw : want ≠ "") (hsub : (pool.filter fun r => field r == want) ≠ []) :
    applyDims pool ((want, field) :: rest)
      = applyDims (pool.filter fun r => field r == want) rest := by
  simp [applyDims, hw, hsub]

/-- When no colocation match exists in a non-empty pool, `selectFrom` returns
the head of the narrowed pool together with the whole narrowed pool. -/
theorem selectFrom_no_id_match (rid : String) (loc : Locality)
    (R : List ReplicaEndpoint)
    (hfind : R.find? (fun x => !(rid == "") && (x.id == rid)) = none)
    (hRne : R ≠ []) :
    ∃ r0 rest, R = r0 :: rest ∧
      selectFrom rid loc R
        = Except.ok ((applyDims R (dimsOf loc)).headD r0, applyDims R (dimsOf loc)) := by
  obtain ⟨r0, rest, hR⟩ := List.exists_cons_of_ne_nil hRne
  subst hR
  refine ⟨r0, rest, rfl, ?_⟩
  show (match (r0 :: rest).find? (fun r => !(rid == "") && (r.id == rid)) with
        | some r => Except.ok (r, [r])
        | none => Except.ok ((applyDims (r0 :: rest) (dimsOf loc)).headD r0,
            applyDims (r0 :: rest) (dimsOf loc)))
      = Except.ok ((applyDims (r0 :: rest) (dimsOf loc)).headD r0,
          applyDims (r0 :: rest) (dimsOf loc))
  rw [hfind]

/-- In a pool whose ids are pairwise distinct, searching by a member's id
finds exactly that member. -/
theorem find_by_unique_id (l : List ReplicaEndpoint) (r : ReplicaEndpoint) (rid : String)
    (hnodup : (l.map ReplicaEndpoint.id).Nodup) (hmem : r ∈ l) (hid : r.id = rid) :
    l.find? (fun x => x.id == rid) = some r := by
  induction l with
  | nil => cases hmem
  | cons a t ih =>
    rw [List.map_cons, List.nodup_cons] at hnodup
    by_cases ha : a.id = rid
    · have hfind : (a :: t).find? (fun x => x.id == rid) = some a := by
        simp [List.find?_cons, ha]
      rcases List.mem_cons.mp hmem with heq | hmemt
      · subst heq; exact hfind
      · exact absurd (by rw [ha, ← hid]; exact List.mem_map_of_mem _ hmemt) hnodup.1
    · have hcons : (a :: t).find? (fun x => x.id == rid) = t.find? (fun x => x.id == rid) := by
        simp [List.find?_cons, ha]
      rcases List.mem_cons.mp hmem with heq | hmemt
      · subst heq; exact absurd hid ha
      · rw [hcons]; exact ih hnodup.2 hmemt

/-! ## Claims about replica selection -/

/-- C1: for every non-empty replica pool (ids pairwise distinct, as replica
ids are globally unique), `select` with `requester_id` equal to some
non-excluded replica's id returns that replica with candidates = {that
replica}, regardless of the locality supplied — colocation overrides
locality. -/
theorem select_colocation_short_circuit (replicas : List ReplicaEndpoint)
    (requester_id : String) (loc : Locality) (excluded_ids : List String)
    (r : ReplicaEndpoint)
    (hnodup : (replicas.map ReplicaEndpoint.id).Nodup)
    (hmem : r ∈ replicas)
    (hexcl : r.id ∉ excluded_ids)
    (hid : requester_id = r.id)
    (hne : requester_id ≠ "") :
    selectReplica replicas requester_id loc excluded_ids = Except.ok (r, [r]) := by
  have hmemR : r ∈ replicas.filter (fun x => !(excluded_ids.contains x.id)) :=
    List.mem_filter.mpr ⟨hmem, by simp [hexcl]⟩
  have hnodupR :
      ((replicas.filter (fun x => !(excluded_ids.contains x.id))).map ReplicaEndpoint.id).Nodup :=
    hnodup.sublist ((List.filter_sublist _).map ReplicaEndpoint.id)
  have hfind := find_by_unique_id _ r requester_id hnodupR hmemR hid.symm
  have hpred : (fun x : ReplicaEndpoint => !(requester_id == "") && (x.id == requester_id))
      = fun x => x.id == requester_id := by
    funext x
    have hb : (requester_id == "") = false := by simp [hne]
    simp [hb]
  obtain ⟨r0, rest, hR⟩ := List.exists_cons_of_ne_nil (List.ne_nil_of_mem hmemR)
  unfold selectReplica
  rw [hR] at hfind ⊢
  show (match (r0 :: rest).find? (fun x => !(requester_id == "") && (x.id == requester_id)) with
        | some x => Except.ok (x, [x])
        | none => Except.ok ((applyDims (r0 :: rest) (dimsOf loc)).headD r0,
            applyDims (r0 :: rest) (dimsOf loc)))
      = Except.ok (r, [r])
  rw [hpred, hfind]

/-- Witness for C1 at the test scenario: requester colocated with replica 0,
locality naming replica 1's zone and replica 2's region — replica 0 is still
returned, alone. -/
theorem select_colocation_short_circuit_witness :
    selectReplica testReplicas "ts-uuid-0" ⟨"", "region2", "zone1"⟩ []
      = Except.ok (replica0, [replica0]) :=
  select_colocation_short_circuit testReplicas "ts-uuid-0" ⟨"", "region2", "zone1"⟩ []
    replica0 (by decide) (by decide) (by decide) (by decide) (by decide)

/-- C2: with no `requester_id` match, when the requester's zone is specified
and some non-excluded replica matches it, the selected replica matches that
zone and so does every candidate: a zone match is preferred over any replica
matching only region or cloud. -/
theorem select_prefers_zone_match (replicas : List ReplicaEndpoint)
    (requester_id : String) (loc : Locality) (excluded_ids : List String)
    (r : ReplicaEndpoint)
    (hno : requester_id = "" ∨ ∀ x ∈ replicas, x.id ≠ requester_id)
    (hz : loc.zone ≠ "")
    (hmem : r ∈ replicas)
    (hexcl : r.id ∉ excluded_ids)
    (hrz : r.locality.zone = loc.zone) :
    ∃ chosen candidates,
      selectReplica replicas requester_id loc excluded_ids = Except.ok (chosen, candidates) ∧
      chosen ∈ candidates ∧ chosen.locality.zone = loc.zone ∧
      ∀ c ∈ candidates, c.locality.zone = loc.zone := by
  have hmemR : r ∈ replicas.filter (fun x => !(excluded_ids.contains x.id)) :=
    List.mem_filter.mpr ⟨hmem, by simp [hexcl]⟩
  have hRne := List.ne_nil_of_mem hmemR
  have hfind : (replicas.filter (fun x => !(excluded_ids.contains x.id))).find?
      (fun x => !(requester_id == "") && (x.id == requester_id)) = none := by
    rw [List.find?_eq_none]
    intro x hx
    rcases hno with h0 | hall
    · simp [h0]
    · simp [hall x (List.mem_of_mem_filter hx)]
  obtain ⟨r0, rest, hR, hsel⟩ := selectFrom_no_id_match requester_id loc _ hfind hRne
  have hmemZ : r ∈ (replicas.filter (fun x => !(excluded_ids.contains x.id))).filter
      (fun x => x.locality.zone == loc.zone) :=
    List.mem_filter.mpr ⟨hmemR, by simp [hrz]⟩
  have hZne := List.ne_nil_of_mem hmemZ
  have hpool : applyDims (replicas.filter (fun x => !(excluded_ids.contains x.id))) (dimsOf loc)
      = applyDims ((replicas.filter (fun x => !(excluded_ids.contains x.id))).filter
            (fun x => x.locality.zone == loc.zone))
          [(loc.region, fun x => x.locality.region), (loc.cloud, fun x => x.locality.cloud)] :=
    applyDims_cons_narrow _ _ _ _ hz hZne
  have hPsub := applyDims_subset
    [(loc.region, fun x => x.locality.region), (loc.cloud, fun x => x.locality.cloud)]
    ((replicas.filter (fun x => !(excluded_ids.contains x.id))).filter
      (fun x => x.locality.zone == loc.zone))
  have hPne := applyDims_ne_nil
    [(loc.region, fun x => x.locality.region), (loc.cloud, fun x => x.locality.cloud)]
    ((replicas.filter (fun x => !(excluded_ids.contains x.id))).filter
      (fun x => x.locality.zone == loc.zone)) hZne
  obtain ⟨p, ps, hP⟩ := List.exists_cons_of_ne_nil hPne
  refine ⟨p, applyDims ((replicas.filter (fun x => !(excluded_ids.contains x.id))).filter
      (fun x => x.locality.zone == loc.zone))
    [(loc.region, fun x => x.locality.region), (loc.cloud, fun x => x.locality.cloud)],
    ?_, ?_, ?_, ?_⟩
  · unfold selectReplica
    rw [hsel, hpool, hP]
    rfl
  · rw [hP]; exact List.mem_cons_self p ps
  · have hpZ := hPsub (hP ▸ List.mem_cons_self p ps)
    simpa using (List.mem_filter.mp hpZ).2
  · intro c hc
    have hcZ := hPsub hc
    simpa using (List.mem_filter.mp hcZ).2

/-- Witness for C2 at the test scenario: with locality {zone:"zone1",
region:"region2"} the zone match wins — replica 1 is selected despite the
region field matching replica 2 — and likewise for the other rotations. -/
theorem select_prefers_zone_match_witness :
    (∃ chosen candidates,
        selectReplica testReplicas "" ⟨"", "region2", "zone1"⟩ []
          = Except.ok (chosen, candidates) ∧
        chosen ∈ candidates ∧ chosen.locality.zone = "zone1" ∧
        ∀ c ∈ candidates, c.locality.zone = "zone1") ∧
    selectReplica testReplicas "" ⟨"", "region2", "zone1"⟩ []
      = Except.ok (replica1, [replica1]) ∧
    selectReplica testReplicas "" ⟨"", "region1", "zone0"⟩ []
      = Except.ok (replica0, [replica0]) ∧
    selectReplica testReplicas "" ⟨"", "region0", "zone2"⟩ []
      = Except.ok (replica2, [replica2]) := by
  refine ⟨?_, rfl, rfl, rfl⟩
  exact select_prefers_zone_match testReplicas "" ⟨"", "region2", "zone1"⟩ [] replica1
    (Or.inl rfl) (by decide) (by decide) (by decide) (by decide)

/-- C5: with no `requester_id` match and the requester's zone unspecified
(empty), when some non-excluded replica matches the requester's region, the
selected replica matches that region and so does every candidate: a region
match is preferred over a cloud-only or no match. -/
theorem select_region_when_zone_unspecified (replicas : List ReplicaEndpoint)
    (requester_id : String) (loc : Locality) (excluded_ids : List String)
    (r : ReplicaEndpoint)
    (hno : requester_id = "" ∨ ∀ x ∈ replicas, x.id ≠ requester_id)
    (hz : loc.zone = "")
    (hreg : loc.region ≠ "")
    (hmem : r ∈ replicas)
    (hexcl : r.id ∉ excluded_ids)
    (hrr : r.locality.region = loc.region) :
    ∃ chosen candidates,
      selectReplica replicas requester_id loc excluded_ids = Except.ok (chosen, candidates) ∧
      chosen ∈ candidates ∧ chosen.locality.region = loc.region ∧
      ∀ c ∈ candidates, c.locality.region = loc.region := by
  have hmemR : r ∈ replicas.filter (fun x => !(excluded_ids.contains x.id)) :=
    List.mem_filter.mpr ⟨hmem, by simp [hexcl]⟩
  have hRne := List.ne_nil_of_mem hmemR
  have hfind : (replicas.filter (fun x => !(excluded_ids.contains x.id))).find?
      (fun x => !(requester_id == "") && (x.id == requester_id)) = none := by
    rw [List.find?_eq_none]
    intro x hx
    rcases hno with h0 | hall
    · simp [h0]
    · simp [hall x (List.mem_of_mem_filter hx)]
  obtain ⟨r0, rest, hR, hsel⟩ := selectFrom_no_id_match requester_id loc _ hfind hRne
  have hmemZ : r ∈ (replicas.filter (fun x => !(excluded_ids.contains x.id))).filter
      (fun x => x.locality.region == loc.region) :=
    List.mem_filter.mpr ⟨hmemR, by simp [hrr]⟩
  have hZne := List.ne_nil_of_mem hmemZ
  have hpool : applyDims (replicas.filter (fun x => !(excluded_ids.contains x.id))) (dimsOf loc)
      = applyDims ((replicas.filter (fun x => !(excluded_ids.contains x.id))).filter
            (fun x => x.locality.region == loc.region))
          [(loc.cloud, fun x => x.locality.cloud)] :=
    (applyDims_cons_skip _ _ _ _ hz).trans (applyDims_cons_narrow _ _ _ _ hreg hZne)
  have hPsub := applyDims_subset [(loc.cloud, fun x => x.locality.cloud)]
    ((replicas.filter (fun x => !(excluded_ids.contains x.id))).filter
      (fun x => x.locality.region == loc.region))
  have hPne := applyDims_ne_nil [(loc.cloud, fun x => x.locality.cloud)]
    ((replicas.filter (fun x => !(excluded_ids.contains x.id))).filter
      (fun x => x.locality.region == loc.region)) hZne
  obtain ⟨p, ps, hP⟩ := List.exists_cons_of_ne_nil hPne
  refine ⟨p, applyDims ((replicas.filter (fun x => !(excluded_ids.contains x.id))).filter
      (fun x => x.locality.region == loc.region))
    [(loc.cloud, fun x => x.locality.cloud)], ?_, ?_, ?_, ?_⟩
  · unfold selectReplica
    rw [hsel, hpool, hP]
    rfl
  · rw [hP]; exact List.mem_cons_self p ps
  · have hpZ := hPsub (hP ▸ List.mem_cons_self p ps)
    simpa using (List.mem_filter.mp hpZ).2
  · intro c hc
    have hcZ := hPsub hc
    simpa using (List.mem_filter.mp hcZ).2

/-- Witness for C5 at the test scenario: with zone unspecified and
region "region2", replica 2 is selected. -/
theorem select_region_when_zone_unspecified_witness :
    (∃ chosen candidates,
        selectReplica testReplicas "" ⟨"", "region2", ""⟩ []
          = Except.ok (chosen, candidates) ∧
        chosen ∈ candidates ∧ chosen.locality.region = "region2" ∧
        ∀ c ∈ candidates, c.locality.region = "region2") ∧
    selectReplica testReplicas "" ⟨"", "region2", ""⟩ []
      = Except.ok (replica2, [replica2]) := by
  refine ⟨?_, rfl⟩
  exact select_region_when_zone_unspecified testReplicas "" ⟨"", "region2", ""⟩ [] replica2
    (Or.inl rfl) rfl (by decide) (by decide) (by decide) rfl
